import Mathlib

/-!
Verification of the AgentHub Linera contract (src/contracts/agent_hub).

The contract's state (state.rs) is a collection of key-value map views and
counters; we embed the maps as association lists with first-match lookup and
replace-on-insert, machine integers (u64/u16/u32/i64/i32) as Nat/Int with exact
arithmetic, Rust i64 division as Int.tdiv (truncation toward zero), account
owners and chain identifiers as Nat, timestamps as Nat microseconds, and the
external ChainId parsing of the Linera SDK as an arbitrary function
String -> Option Nat carried in the runtime context.

The repository's lib.rs predates contract.rs: it lacks the subscription types
(Subscription, SubscriptionOffer, the subscription Operation/Message/Response
variants and the AlreadySubscribed/NotSubscribed errors) that contract.rs
constructs and matches on.  Those shapes are fully determined by their uses in
contract.rs (which is under src/), and are embedded from there.
-/

namespace AgentHub

/-- First-match lookup in an association list (models MapView.get). -/
def lookupA {α β : Type} [DecidableEq α] : List (α × β) → α → Option β
  | [], _ => none
  | p :: rest, k => if p.1 = k then some p.2 else lookupA rest k

/-- Replace-on-insert for an association list (models MapView.insert upsert). -/
def insertA {α β : Type} [DecidableEq α] (m : List (α × β)) (k : α) (v : β) :
    List (α × β) :=
  (k, v) :: m.filter (fun p => p.1 ≠ k)

/-- Key removal (models MapView.remove). -/
def removeA {α β : Type} [DecidableEq α] (m : List (α × β)) (k : α) :
    List (α × β) :=
  m.filter (fun p => p.1 ≠ k)

/-- Key presence (models MapView.contains_key). -/
def containsA {α β : Type} [DecidableEq α] (m : List (α × β)) (k : α) : Bool :=
  (lookupA m k).isSome

/-- Market type for the strategy (lib.rs MarketKind). -/
inductive MarketKind
  | Crypto
  | Sports
  | PredictionApp
  deriving DecidableEq, Repr

/-- Signal direction prediction (lib.rs Direction). -/
inductive Direction
  | Up
  | Down
  | Over
  | Under
  | Yes
  | No
  deriving DecidableEq, Repr

/-- Status of a signal (lib.rs SignalStatus). -/
inductive SignalStatus
  | Open
  | Resolved
  | Cancelled
  deriving DecidableEq, Repr

/-- Result of a resolved signal (lib.rs SignalResult). -/
inductive SignalResult
  | Win
  | Lose
  | Push
  deriving DecidableEq, Repr

/-- A registered strategist (lib.rs Strategist). -/
structure Strategist where
  owner : Nat
  display_name : String
  created_at : Nat
  deriving DecidableEq, Repr

/-- An agent strategy (lib.rs AgentStrategy). -/
structure AgentStrategy where
  id : Nat
  owner : Nat
  name : String
  description : String
  market_kind : MarketKind
  base_market : String
  is_public : Bool
  is_ai_controlled : Bool
  created_at : Nat
  deriving DecidableEq, Repr

/-- A trading signal (lib.rs Signal). -/
structure Signal where
  id : Nat
  strategy_id : Nat
  created_at : Nat
  expires_at : Nat
  direction : Direction
  entry_value : Option Nat
  confidence_bps : Nat
  status : SignalStatus
  result : Option SignalResult
  pnl_bps : Option Int
  resolved_value : Option Nat
  deriving DecidableEq, Repr

/-- Aggregated statistics for a strategy (lib.rs StrategyStats). -/
structure StrategyStats where
  strategy_id : Nat
  total_signals : Nat
  winning_signals : Nat
  losing_signals : Nat
  push_signals : Nat
  win_rate_bps : Nat
  avg_pnl_bps : Int
  total_pnl_bps : Int
  followers : Nat
  deriving DecidableEq, Repr

/-- The Default value of StrategyStats (derive(Default) in lib.rs: all zero). -/
def defaultStats : StrategyStats :=
  { strategy_id := 0, total_signals := 0, winning_signals := 0,
    losing_signals := 0, push_signals := 0, win_rate_bps := 0,
    avg_pnl_bps := 0, total_pnl_bps := 0, followers := 0 }

/-- A follower relationship (lib.rs Follower). -/
structure Follower where
  strategy_id : Nat
  follower : Nat
  auto_copy : Bool
  max_exposure_units : Nat
  created_at : Nat
  deriving DecidableEq, Repr

/-- Key for the follower map (lib.rs FollowerKey). -/
structure FollowerKey where
  strategy_id : Nat
  follower : Nat
  deriving DecidableEq, Repr

/-- A subscription offer, embedded from its construction in
contract.rs enable_subscription. -/
structure SubscriptionOffer where
  strategist : Nat
  description : Option String
  is_enabled : Bool
  deriving DecidableEq, Repr

/-- A subscription record, embedded from its construction in
contract.rs execute_message. -/
structure Subscription where
  id : String
  subscriber : Nat
  subscriber_chain_id : String
  strategist : Nat
  strategist_chain_id : String
  start_timestamp : Nat
  end_timestamp : Nat
  is_active : Bool
  deriving DecidableEq, Repr

/-- Errors (lib.rs AgentHubError, plus the AlreadySubscribed / NotSubscribed
variants used by contract.rs and the bare "Not authenticated" response of
execute_operation, which the spec's taxonomy lists as NotAuthenticated). -/
inductive AgentHubError
  | NotAuthenticated
  | StrategistNotRegistered
  | StrategistAlreadyRegistered
  | StrategyNotFound
  | SignalNotFound
  | SignalAlreadyResolved
  | SignalNotOpen
  | NotAuthorized
  | AlreadyFollowing
  | NotFollowing
  | InvalidConfidence
  | AlreadySubscribed
  | NotSubscribed
  deriving DecidableEq, Repr

/-- Responses (lib.rs AgentHubResponse plus the subscription variants
constructed in contract.rs); the Error variant carries the error value whose
Display string the Rust code embeds in the message. -/
inductive AgentHubResponse
  | Ok
  | StrategistRegistered (owner : Nat)
  | StrategyCreated (id : Nat)
  | SignalPublished (id : Nat)
  | SignalResolved (id : Nat) (result : SignalResult) (pnl_bps : Int)
  | SignalCancelled (id : Nat)
  | Followed (strategy_id : Nat)
  | Unfollowed (strategy_id : Nat)
  | SubscriptionEnabled (strategist : Nat)
  | SubscriptionDisabled (strategist : Nat)
  | Subscribed (subscription_id : String)
  | Unsubscribed (strategist : Nat)
  | Error (e : AgentHubError)
  deriving DecidableEq, Repr

/-- Cross-chain messages, embedded from the match arms of
contract.rs execute_message and the prepare_message call sites. -/
inductive Message
  | SignalResolved (signal_id strategy_id : Nat) (result : SignalResult)
      (pnl_bps : Int)
  | SubscriptionRequest (subscriber : Nat) (subscriber_chain_id : String)
      (timestamp : Nat)
  | SubscriptionConfirmed (subscription_id : String) (strategist : Nat)
      (strategist_chain_id : String) (end_timestamp : Nat)
  | SignalBroadcast (signal : Signal) (strategy_name : String)
      (strategist : Nat)
  deriving DecidableEq, Repr

/-- Operations (lib.rs Operation plus the four subscription operations
dispatched in contract.rs execute_operation). -/
inductive Operation
  | RegisterStrategist (display_name : String)
  | CreateAgentStrategy (name description : String) (market_kind : MarketKind)
      (base_market : String) (is_public is_ai_controlled : Bool)
  | PublishSignal (strategy_id : Nat) (direction : Direction)
      (horizon_secs confidence_bps : Nat) (entry_value : Option Nat)
  | ResolveSignal (signal_id resolved_value : Nat)
  | CancelSignal (signal_id : Nat)
  | FollowStrategy (strategy_id : Nat) (auto_copy : Bool)
      (max_exposure_units : Nat)
  | UnfollowStrategy (strategy_id : Nat)
  | UpdateStats (strategy_id : Nat)
  | EnableSubscription (description : Option String)
  | DisableSubscription
  | SubscribeToStrategist (strategist : Nat) (strategist_chain_id : String)
  | UnsubscribeFromStrategist (strategist : Nat)
  deriving DecidableEq, Repr

/-- The contract state (state.rs AgentHubState). -/
structure AgentHubState where
  hub_chain_id : Option Nat
  strategists : List (Nat × Strategist)
  strategies : List (Nat × AgentStrategy)
  signals : List (Nat × Signal)
  signals_by_strategy : List (Nat × List Nat)
  strategy_stats : List (Nat × StrategyStats)
  followers : List (FollowerKey × Follower)
  follower_count : List (Nat × Nat)
  next_strategy_id : Nat
  next_signal_id : Nat
  subscription_offers : List (Nat × SubscriptionOffer)
  subscriptions : List (String × Subscription)
  subscriptions_by_subscriber : List (Nat × List String)
  subscribers_by_strategist : List (Nat × List String)
  next_subscription_id : Nat
  deriving DecidableEq, Repr

/-- Runtime context: the authenticated signer, the executing chain's id, the
system time in microseconds, and the external ChainId string parser of the
Linera SDK (abstract: any partial function). -/
structure Ctx where
  signer : Option Nat
  chainId : Nat
  time : Nat
  parseChain : String → Option Nat

/-- Reduction of an integer into the i64 value range, two's complement: the
value congruent mod 2^64 lying in [-2^63, 2^63).  This is the semantics of
Rust's `u64 as i64` cast, and of i64 add/sub/mul/neg overflow in a build
with overflow checks off (a checked build would panic instead of wrapping;
no execution that Rust completes differs from this model). -/
def wrap64 (x : Int) : Int := (x + 2 ^ 63) % 2 ^ 64 - 2 ^ 63

/-- Reduction into the i32 value range, the semantics of Rust's `as i32`
cast (defined, never panics). -/
def wrap32 (x : Int) : Int := (x + 2 ^ 31) % 2 ^ 32 - 2 ^ 31

/-- calculate_signal_result (contract.rs lines 420-459): pure result/PnL
computation.  The `u64 as i64` casts wrap (wrap64 of the operand), the i64
subtraction, multiplication and negation wrap on overflow, and the i64
division truncates toward zero (Int.tdiv; its sole overflow case,
i64::MIN / -1, panics in Rust and is modelled by the wrapped value).  The
Win/Lose/Push comparison is on the original u64 values. -/
def calculate_signal_result (signal : Signal) (resolved_value : Nat) :
    SignalResult × Int :=
  let entry := signal.entry_value.getD 0
  if entry = 0 ∨ resolved_value = 0 then
    (SignalResult.Push, 0)
  else
    let pnl_bps : Int :=
      wrap64 (Int.tdiv
        (wrap64 (wrap64 (wrap64 (resolved_value : Int) -
          wrap64 (entry : Int)) * 10000))
        (wrap64 (entry : Int)))
    let result :=
      match signal.direction with
      | Direction.Up | Direction.Over | Direction.Yes =>
        if resolved_value > entry then SignalResult.Win
        else if resolved_value < entry then SignalResult.Lose
        else SignalResult.Push
      | Direction.Down | Direction.Under | Direction.No =>
        if resolved_value < entry then SignalResult.Win
        else if resolved_value > entry then SignalResult.Lose
        else SignalResult.Push
    let adjusted_pnl :=
      match signal.direction with
      | Direction.Down | Direction.Under | Direction.No => wrap64 (-pnl_bps)
      | _ => pnl_bps
    (result, adjusted_pnl)

/-- Membership of a direction in the Down/Under/No group, used to state
the claim about the sign adjustment. -/
def downGroup : Direction → Bool
  | Direction.Down | Direction.Under | Direction.No => true
  | _ => false

/-- register_strategist (contract.rs lines 252-267). -/
def register_strategist (ctx : Ctx) (st : AgentHubState) (owner : Nat)
    (display_name : String) : AgentHubState × AgentHubResponse :=
  if containsA st.strategists owner then
    (st, AgentHubResponse.Error AgentHubError.StrategistAlreadyRegistered)
  else
    let strategist : Strategist :=
      { owner := owner, display_name := display_name, created_at := ctx.time }
    ({ st with strategists := insertA st.strategists owner strategist },
     AgentHubResponse.StrategistRegistered owner)

/-- create_strategy (contract.rs lines 270-317). -/
def create_strategy (ctx : Ctx) (st : AgentHubState) (owner : Nat)
    (name description : String) (market_kind : MarketKind)
    (base_market : String) (is_public is_ai_controlled : Bool) :
    AgentHubState × AgentHubResponse :=
  if ¬ containsA st.strategists owner then
    (st, AgentHubResponse.Error AgentHubError.StrategistNotRegistered)
  else
    let id := st.next_strategy_id
    let strategy : AgentStrategy :=
      { id := id, owner := owner, name := name, description := description,
        market_kind := market_kind, base_market := base_market,
        is_public := is_public, is_ai_controlled := is_ai_controlled,
        created_at := ctx.time }
    let stats := { defaultStats with strategy_id := id }
    ({ st with
        next_strategy_id := id + 1,
        strategies := insertA st.strategies id strategy,
        signals_by_strategy := insertA st.signals_by_strategy id [],
        strategy_stats := insertA st.strategy_stats id stats,
        follower_count := insertA st.follower_count id 0 },
     AgentHubResponse.StrategyCreated id)

/-- publish_signal (contract.rs lines 320-377). -/
def publish_signal (ctx : Ctx) (st : AgentHubState) (owner strategy_id : Nat)
    (direction : Direction) (horizon_secs confidence_bps : Nat)
    (entry_value : Option Nat) : AgentHubState × AgentHubResponse :=
  if confidence_bps > 10000 then
    (st, AgentHubResponse.Error AgentHubError.InvalidConfidence)
  else
    match lookupA st.strategies strategy_id with
    | none => (st, AgentHubResponse.Error AgentHubError.StrategyNotFound)
    | some strategy =>
      if strategy.owner ≠ owner then
        (st, AgentHubResponse.Error AgentHubError.NotAuthorized)
      else
        let id := st.next_signal_id
        let signal : Signal :=
          { id := id, strategy_id := strategy_id, created_at := ctx.time,
            expires_at := ctx.time + horizon_secs * 1000000,
            direction := direction, entry_value := entry_value,
            confidence_bps := confidence_bps, status := SignalStatus.Open,
            result := none, pnl_bps := none, resolved_value := none }
        let signal_ids := (lookupA st.signals_by_strategy strategy_id).getD []
        ({ st with
            next_signal_id := id + 1,
            signals := insertA st.signals id signal,
            signals_by_strategy :=
              insertA st.signals_by_strategy strategy_id (signal_ids ++ [id]) },
         AgentHubResponse.SignalPublished id)

/-- Accumulator of the stats loop in update_strategy_stats. -/
structure StatsAcc where
  total : Nat
  winning : Nat
  losing : Nat
  push : Nat
  pnl : Int
  deriving DecidableEq, Repr

/-- One iteration of the stats loop (contract.rs lines 578-592); the i64
accumulation total_pnl += pnl_bps wraps on overflow (wrap64). -/
def statsStep (signals : List (Nat × Signal)) (acc : StatsAcc) (sid : Nat) :
    StatsAcc :=
  match lookupA signals sid with
  | some s =>
    if s.status = SignalStatus.Resolved then
      let acc1 := { acc with
        total := acc.total + 1, pnl := wrap64 (acc.pnl + s.pnl_bps.getD 0) }
      match s.result with
      | some SignalResult.Win => { acc1 with winning := acc1.winning + 1 }
      | some SignalResult.Lose => { acc1 with losing := acc1.losing + 1 }
      | some SignalResult.Push => { acc1 with push := acc1.push + 1 }
      | none => acc1
    else acc
  | none => acc

/-- update_strategy_stats (contract.rs lines 568-625); the stored
avg_pnl_bps carries the `as i32` cast of the truncating i64 division
(wrap32). -/
def update_strategy_stats (st : AgentHubState) (strategy_id : Nat) :
    AgentHubState × AgentHubResponse :=
  let signal_ids := (lookupA st.signals_by_strategy strategy_id).getD []
  let acc := signal_ids.foldl (statsStep st.signals)
    { total := 0, winning := 0, losing := 0, push := 0, pnl := 0 }
  let win_rate_bps := if acc.total > 0 then acc.winning * 10000 / acc.total else 0
  let avg_pnl_bps : Int :=
    if acc.total > 0 then wrap32 (Int.tdiv acc.pnl (acc.total : Int)) else 0
  let followers := (lookupA st.follower_count strategy_id).getD 0
  let stats : StrategyStats :=
    { strategy_id := strategy_id, total_signals := acc.total,
      winning_signals := acc.winning, losing_signals := acc.losing,
      push_signals := acc.push, win_rate_bps := win_rate_bps,
      avg_pnl_bps := avg_pnl_bps, total_pnl_bps := acc.pnl,
      followers := followers }
  ({ st with strategy_stats := insertA st.strategy_stats strategy_id stats },
   AgentHubResponse.Ok)

/-- resolve_signal (contract.rs lines 380-417). -/
def resolve_signal (st : AgentHubState) (signal_id resolved_value : Nat) :
    AgentHubState × AgentHubResponse :=
  match lookupA st.signals signal_id with
  | none => (st, AgentHubResponse.Error AgentHubError.SignalNotFound)
  | some signal =>
    if signal.status ≠ SignalStatus.Open then
      (st, AgentHubResponse.Error AgentHubError.SignalAlreadyResolved)
    else
      let rp := calculate_signal_result signal resolved_value
      let signal1 := { signal with
        status := SignalStatus.Resolved, result := some rp.1,
        pnl_bps := some rp.2, resolved_value := some resolved_value }
      let strategy_id := signal.strategy_id
      let st1 := { st with signals := insertA st.signals signal_id signal1 }
      let st2 := (update_strategy_stats st1 strategy_id).1
      (st2, AgentHubResponse.SignalResolved signal_id rp.1 rp.2)

/-- cancel_signal (contract.rs lines 462-490). -/
def cancel_signal (st : AgentHubState) (owner signal_id : Nat) :
    AgentHubState × AgentHubResponse :=
  match lookupA st.signals signal_id with
  | none => (st, AgentHubResponse.Error AgentHubError.SignalNotFound)
  | some signal =>
    match lookupA st.strategies signal.strategy_id with
    | none => (st, AgentHubResponse.Error AgentHubError.StrategyNotFound)
    | some strategy =>
      if strategy.owner ≠ owner then
        (st, AgentHubResponse.Error AgentHubError.NotAuthorized)
      else if signal.status ≠ SignalStatus.Open then
        (st, AgentHubResponse.Error AgentHubError.SignalNotOpen)
      else
        let signal1 := { signal with status := SignalStatus.Cancelled }
        ({ st with signals := insertA st.signals signal_id signal1 },
         AgentHubResponse.SignalCancelled signal_id)

/-- follow_strategy (contract.rs lines 493-537). -/
def follow_strategy (ctx : Ctx) (st : AgentHubState)
    (follower_owner strategy_id : Nat) (auto_copy : Bool)
    (max_exposure_units : Nat) : AgentHubState × AgentHubResponse :=
  if ¬ containsA st.strategies strategy_id then
    (st, AgentHubResponse.Error AgentHubError.StrategyNotFound)
  else
    let key : FollowerKey :=
      { strategy_id := strategy_id, follower := follower_owner }
    if containsA st.followers key then
      (st, AgentHubResponse.Error AgentHubError.AlreadyFollowing)
    else
      let follower : Follower :=
        { strategy_id := strategy_id, follower := follower_owner,
          auto_copy := auto_copy, max_exposure_units := max_exposure_units,
          created_at := ctx.time }
      let count := (lookupA st.follower_count strategy_id).getD 0
      let stats := (lookupA st.strategy_stats strategy_id).getD defaultStats
      ({ st with
          followers := insertA st.followers key follower,
          follower_count := insertA st.follower_count strategy_id (count + 1),
          strategy_stats := insertA st.strategy_stats strategy_id
            { stats with followers := count + 1 } },
       AgentHubResponse.Followed strategy_id)

/-- unfollow_strategy (contract.rs lines 540-565). -/
def unfollow_strategy (st : AgentHubState) (follower_owner strategy_id : Nat) :
    AgentHubState × AgentHubResponse :=
  let key : FollowerKey :=
    { strategy_id := strategy_id, follower := follower_owner }
  if ¬ containsA st.followers key then
    (st, AgentHubResponse.Error AgentHubError.NotFollowing)
  else
    let count := (lookupA st.follower_count strategy_id).getD 1
    let new_count := count - 1
    let stats := (lookupA st.strategy_stats strategy_id).getD defaultStats
    ({ st with
        followers := removeA st.followers key,
        follower_count := insertA st.follower_count strategy_id new_count,
        strategy_stats := insertA st.strategy_stats strategy_id
          { stats with followers := new_count } },
     AgentHubResponse.Unfollowed strategy_id)

/-- enable_subscription (contract.rs lines 632-652). -/
def enable_subscription (st : AgentHubState) (owner : Nat)
    (description : Option String) : AgentHubState × AgentHubResponse :=
  if ¬ containsA st.strategists owner then
    (st, AgentHubResponse.Error AgentHubError.StrategistNotRegistered)
  else
    let offer : SubscriptionOffer :=
      { strategist := owner, description := description, is_enabled := true }
    ({ st with subscription_offers := insertA st.subscription_offers owner offer },
     AgentHubResponse.SubscriptionEnabled owner)

/-- disable_subscription (contract.rs lines 655-664). -/
def disable_subscription (st : AgentHubState) (owner : Nat) :
    AgentHubState × AgentHubResponse :=
  match lookupA st.subscription_offers owner with
  | some offer =>
    ({ st with subscription_offers :=
        insertA st.subscription_offers owner { offer with is_enabled := false } },
     AgentHubResponse.SubscriptionDisabled owner)
  | none => (st, AgentHubResponse.SubscriptionDisabled owner)

/-- The scan of the subscriber's tokens in subscribe_to_strategist and
unsubscribe_from_strategist: the first token bound to an active subscription
whose strategist matches. -/
def findActiveSub (subscriptions : List (String × Subscription))
    (strategist : Nat) : List String → Option String
  | [] => none
  | sub_id :: rest =>
    match lookupA subscriptions sub_id with
    | some sub =>
      if sub.strategist = strategist ∧ sub.is_active then some sub_id
      else findActiveSub subscriptions strategist rest
    | none => findActiveSub subscriptions strategist rest

/-- subscribe_to_strategist (contract.rs lines 667-701); returns the new
state, the response, and the outbound messages (destination chain, message). -/
def subscribe_to_strategist (ctx : Ctx) (st : AgentHubState)
    (subscriber strategist : Nat) (strategist_chain_id : String) :
    AgentHubState × AgentHubResponse × List (Nat × Message) :=
  let existing_subs :=
    (lookupA st.subscriptions_by_subscriber subscriber).getD []
  if (findActiveSub st.subscriptions strategist existing_subs).isSome then
    (st, AgentHubResponse.Error AgentHubError.AlreadySubscribed, [])
  else
    let timestamp := ctx.time
    let subscriber_chain_id := toString ctx.chainId
    let outbox :=
      match ctx.parseChain strategist_chain_id with
      | some target_chain =>
        [(target_chain,
          Message.SubscriptionRequest subscriber subscriber_chain_id timestamp)]
      | none => []
    (st, AgentHubResponse.Subscribed ("pending-" ++ toString timestamp), outbox)

/-- unsubscribe_from_strategist (contract.rs lines 704-736). -/
def unsubscribe_from_strategist (st : AgentHubState)
    (subscriber strategist : Nat) : AgentHubState × AgentHubResponse :=
  let existing_subs :=
    (lookupA st.subscriptions_by_subscriber subscriber).getD []
  match findActiveSub st.subscriptions strategist existing_subs with
  | some sub_id =>
    let st1 :=
      match lookupA st.subscriptions sub_id with
      | some sub =>
        { st with subscriptions :=
            insertA st.subscriptions sub_id { sub with is_active := false } }
      | none => st
    (st1, AgentHubResponse.Unsubscribed strategist)
  | none => (st, AgentHubResponse.Error AgentHubError.NotSubscribed)

/-- execute_operation (contract.rs lines 54-119): requires an authenticated
signer, then dispatches; the outbound message list captures
prepare_message/send_to effects. -/
def execute_operation (ctx : Ctx) (op : Operation) (st : AgentHubState) :
    AgentHubState × AgentHubResponse × List (Nat × Message) :=
  match ctx.signer with
  | none => (st, AgentHubResponse.Error AgentHubError.NotAuthenticated, [])
  | some owner =>
    match op with
    | Operation.RegisterStrategist display_name =>
      let r := register_strategist ctx st owner display_name
      (r.1, r.2, [])
    | Operation.CreateAgentStrategy name description market_kind base_market
        is_public is_ai_controlled =>
      let r := create_strategy ctx st owner name description market_kind
        base_market is_public is_ai_controlled
      (r.1, r.2, [])
    | Operation.PublishSignal strategy_id direction horizon_secs
        confidence_bps entry_value =>
      let r := publish_signal ctx st owner strategy_id direction horizon_secs
        confidence_bps entry_value
      (r.1, r.2, [])
    | Operation.ResolveSignal signal_id resolved_value =>
      let r := resolve_signal st signal_id resolved_value
      (r.1, r.2, [])
    | Operation.CancelSignal signal_id =>
      let r := cancel_signal st owner signal_id
      (r.1, r.2, [])
    | Operation.FollowStrategy strategy_id auto_copy max_exposure_units =>
      let r := follow_strategy ctx st owner strategy_id auto_copy
        max_exposure_units
      (r.1, r.2, [])
    | Operation.UnfollowStrategy strategy_id =>
      let r := unfollow_strategy st owner strategy_id
      (r.1, r.2, [])
    | Operation.UpdateStats strategy_id =>
      let r := update_strategy_stats st strategy_id
      (r.1, r.2, [])
    | Operation.EnableSubscription description =>
      let r := enable_subscription st owner description
      (r.1, r.2, [])
    | Operation.DisableSubscription =>
      let r := disable_subscription st owner
      (r.1, r.2, [])
    | Operation.SubscribeToStrategist strategist strategist_chain_id =>
      subscribe_to_strategist ctx st owner strategist strategist_chain_id
    | Operation.UnsubscribeFromStrategist strategist =>
      let r := unsubscribe_from_strategist st owner strategist
      (r.1, r.2, [])

/-- execute_message (contract.rs lines 121-238): message handlers have no
response, only state mutation and outbound messages. -/
def execute_message (ctx : Ctx) (msg : Message) (st : AgentHubState) :
    AgentHubState × List (Nat × Message) :=
  match msg with
  | Message.SignalResolved _ strategy_id _ _ =>
    ((update_strategy_stats st strategy_id).1, [])
  | Message.SubscriptionRequest subscriber subscriber_chain_id timestamp =>
    let strategist := ctx.signer.getD subscriber
    match lookupA st.subscription_offers strategist with
    | some offer =>
      if offer.is_enabled then
        let sub_id := st.next_subscription_id
        let subscription_id := "sub-" ++ toString sub_id ++ "-" ++ toString timestamp
        let end_timestamp := timestamp + 30 * 24 * 60 * 60 * 1000000
        let chain_id := ctx.chainId
        let subscription : Subscription :=
          { id := subscription_id, subscriber := subscriber,
            subscriber_chain_id := subscriber_chain_id,
            strategist := strategist,
            strategist_chain_id := toString chain_id,
            start_timestamp := timestamp, end_timestamp := end_timestamp,
            is_active := true }
        let subs := (lookupA st.subscribers_by_strategist strategist).getD []
        let st1 := { st with
          next_subscription_id := sub_id + 1,
          subscriptions := insertA st.subscriptions subscription_id subscription,
          subscribers_by_strategist := insertA st.subscribers_by_strategist
            strategist (subs ++ [subscription_id]) }
        let outbox :=
          match ctx.parseChain subscriber_chain_id with
          | some sub_chain =>
            [(sub_chain, Message.SubscriptionConfirmed subscription_id
              strategist (toString chain_id) end_timestamp)]
          | none => []
        (st1, outbox)
      else (st, [])
    | none => (st, [])
  | Message.SubscriptionConfirmed subscription_id strategist
      strategist_chain_id end_timestamp =>
    let subscriber := ctx.signer.getD strategist
    let chain_id := ctx.chainId
    let timestamp := ctx.time
    let subscription : Subscription :=
      { id := subscription_id, subscriber := subscriber,
        subscriber_chain_id := toString chain_id, strategist := strategist,
        strategist_chain_id := strategist_chain_id,
        start_timestamp := timestamp, end_timestamp := end_timestamp,
        is_active := true }
    let subs := (lookupA st.subscriptions_by_subscriber subscriber).getD []
    ({ st with
        subscriptions := insertA st.subscriptions subscription_id subscription,
        subscriptions_by_subscriber := insertA st.subscriptions_by_subscriber
          subscriber (subs ++ [subscription_id]) },
     [])
  | Message.SignalBroadcast signal _ _ =>
    ({ st with signals := insertA st.signals signal.id signal }, [])

/-- instantiate (contract.rs lines 43-52) applied to the empty state: parses
the hub chain id (silently ignored when unparsable) and sets all counters
to 1. -/
def instantiate (ctx : Ctx) (hub_chain_id : String) : AgentHubState :=
  { hub_chain_id := ctx.parseChain hub_chain_id,
    strategists := [], strategies := [], signals := [],
    signals_by_strategy := [], strategy_stats := [], followers := [],
    follower_count := [], next_strategy_id := 1, next_signal_id := 1,
    subscription_offers := [], subscriptions := [],
    subscriptions_by_subscriber := [], subscribers_by_strategist := [],
    next_subscription_id := 1 }

/-! ### Helper lemmas about the association-list maps -/

lemma lookupA_insertA_self {α β : Type} [DecidableEq α]
    (m : List (α × β)) (k : α) (v : β) : lookupA (insertA m k v) k = some v := by
  simp [insertA, lookupA]

lemma mem_insertA {α β : Type} [DecidableEq α]
    {m : List (α × β)} {k : α} {v : β} {p : α × β}
    (h : p ∈ insertA m k v) : p = (k, v) ∨ p ∈ m := by
  rcases List.mem_cons.mp h with h1 | h1
  · exact Or.inl h1
  · exact Or.inr (List.mem_of_mem_filter h1)

lemma lookupA_cons {α β : Type} [DecidableEq α] (p : α × β)
    (rest : List (α × β)) (k : α) :
    lookupA (p :: rest) k = if p.1 = k then some p.2 else lookupA rest k := rfl

lemma lookupA_filter_ne {α β : Type} [DecidableEq α]
    (m : List (α × β)) (k k2 : α) (h : k2 ≠ k) :
    lookupA (m.filter (fun q => q.1 ≠ k)) k2 = lookupA m k2 := by
  induction m with
  | nil => rfl
  | cons p rest ih =>
    by_cases hp : p.1 = k
    · have h1 : (p :: rest).filter (fun q => q.1 ≠ k) =
          rest.filter (fun q => q.1 ≠ k) := by
        simp [List.filter_cons, hp]
      have hpk2 : ¬ p.1 = k2 := by
        rw [hp]; exact fun hh => h hh.symm
      rw [h1, ih, lookupA_cons, if_neg hpk2]
    · have h1 : (p :: rest).filter (fun q => q.1 ≠ k) =
          p :: rest.filter (fun q => q.1 ≠ k) := by
        simp [List.filter_cons, hp]
      rw [h1, lookupA_cons, lookupA_cons, ih]

lemma lookupA_insertA_ne {α β : Type} [DecidableEq α]
    (m : List (α × β)) (k k2 : α) (v : β) (h : k2 ≠ k) :
    lookupA (insertA m k v) k2 = lookupA m k2 := by
  have hk : ¬ k = k2 := fun hh => h hh.symm
  unfold insertA
  rw [lookupA_cons, if_neg hk]
  exact lookupA_filter_ne m k k2 h

/-! ### The signals a stats recompute folds over -/

/-- The signals of a given id list that load successfully and have status
Resolved — exactly the records the stats loop accumulates. -/
def loadResolved (signals : List (Nat × Signal)) (ids : List Nat) :
    List Signal :=
  ids.filterMap (fun sid =>
    match lookupA signals sid with
    | some s => if s.status = SignalStatus.Resolved then some s else none
    | none => none)

/-- Number of signals in a list carrying a given stored result. -/
def countResult (r : SignalResult) (l : List Signal) : Nat :=
  (l.filter (fun s => s.result = some r)).length

/-- The i64 wrapping sum of the stored pnl_bps values (0 for an absent
one), exactly as the total_pnl += loop accumulates it left to right. -/
def sumPnl (l : List Signal) : Int :=
  l.foldl (fun acc s => wrap64 (acc + s.pnl_bps.getD 0)) 0

lemma foldl_statsStep (signals : List (Nat × Signal)) (ids : List Nat)
    (a : StatsAcc) :
    ids.foldl (statsStep signals) a =
      { total := a.total + (loadResolved signals ids).length,
        winning := a.winning + countResult SignalResult.Win (loadResolved signals ids),
        losing := a.losing + countResult SignalResult.Lose (loadResolved signals ids),
        push := a.push + countResult SignalResult.Push (loadResolved signals ids),
        pnl := (loadResolved signals ids).foldl
          (fun acc s => wrap64 (acc + s.pnl_bps.getD 0)) a.pnl } := by
  induction ids generalizing a with
  | nil => simp [loadResolved, countResult]
  | cons sid rest ih =>
    simp only [List.foldl_cons]
    rw [ih]
    cases h : lookupA signals sid with
    | none =>
      simp [statsStep, h, loadResolved]
    | some s =>
      by_cases hs : s.status = SignalStatus.Resolved
      · cases hr : s.result with
        | none =>
          simp [statsStep, h, hs, hr, loadResolved, countResult]
          omega
        | some r =>
          cases r <;>
            · simp [statsStep, h, hs, hr, loadResolved, countResult]
              constructor <;> omega
      · simp [statsStep, h, hs, loadResolved]

/-- The Resolved signals of a strategy's id list in a given state. -/
def resolvedOf (st : AgentHubState) (strategy_id : Nat) : List Signal :=
  loadResolved st.signals ((lookupA st.signals_by_strategy strategy_id).getD [])

/-- The stats row a full recompute produces for a strategy in a given state,
stated in the spec's terms (paragraph 3 of spec.md): counts over the Resolved
signals, win rate and truncated average with the 0-denominator convention,
exact PnL sum, current follower count. -/
def statsRow (st : AgentHubState) (strategy_id : Nat) : StrategyStats :=
  let rs := resolvedOf st strategy_id
  { strategy_id := strategy_id,
    total_signals := rs.length,
    winning_signals := countResult SignalResult.Win rs,
    losing_signals := countResult SignalResult.Lose rs,
    push_signals := countResult SignalResult.Push rs,
    win_rate_bps :=
      if rs.length = 0 then 0
      else countResult SignalResult.Win rs * 10000 / rs.length,
    avg_pnl_bps :=
      if rs.length = 0 then 0
      else wrap32 (Int.tdiv (sumPnl rs) (rs.length : Int)),
    total_pnl_bps := sumPnl rs,
    followers := (lookupA st.follower_count strategy_id).getD 0 }

/-- Full characterization of update_strategy_stats: it always answers Ok,
leaves everything but the strategy_stats map unchanged, and writes for the
given strategy the row computed from the Resolved signals of the strategy's
id list and the current follower count. -/
lemma update_stats_spec (st : AgentHubState) (strategy_id : Nat) :
    update_strategy_stats st strategy_id =
      ({ st with strategy_stats :=
          (insertA st.strategy_stats strategy_id (statsRow st strategy_id)) },
       AgentHubResponse.Ok) := by
  simp only [update_strategy_stats, foldl_statsStep, statsRow, resolvedOf,
    sumPnl, Nat.zero_add]
  by_cases h :
    (loadResolved st.signals
      ((lookupA st.signals_by_strategy strategy_id).getD [])).length = 0
  · simp [h]
  · simp [h, Nat.pos_of_ne_zero h]

/-! ### Claim theorems -/

lemma if_lt_comm {α : Type} (a b : Nat) (x y z : α) :
    (if a < b then x else if b < a then y else z) =
    (if b < a then y else if a < b then x else z) := by
  rcases Nat.lt_trichotomy a b with h | h | h
  · simp [h, Nat.lt_asymm h]
  · simp [h]
  · simp [h, Nat.lt_asymm h]

lemma wrap64_eq {x : Int} (h1 : -(2 ^ 63) ≤ x) (h2 : x < 2 ^ 63) :
    wrap64 x = x := by
  unfold wrap64
  rw [Int.emod_eq_of_lt (by omega) (by omega)]
  omega

/-- A fixed runtime context for concrete scenarios: no signer, chain 0,
time 0, a ChainId parser that accepts nothing. -/
def ctx0 : Ctx :=
  { signer := none, chainId := 0, time := 0, parseChain := fun _ => none }

/-- A context with signer, used for concrete operation traces. -/
def ctxSigned (owner : Nat) : Ctx :=
  { signer := some owner, chainId := 0, time := 0,
    parseChain := fun _ => none }

/-- The freshly instantiated state of concrete scenarios. -/
def st0 : AgentHubState := instantiate ctx0 "hub"

/-- A concrete already-resolved signal. -/
def exResolvedSignal : Signal :=
  { id := 1, strategy_id := 1, created_at := 0, expires_at := 0,
    direction := Direction.Up, entry_value := some 100, confidence_bps := 0,
    status := SignalStatus.Resolved, result := some SignalResult.Win,
    pnl_bps := some 1000, resolved_value := some 110 }

/-- A concrete state holding only exResolvedSignal. -/
def exResolvedState : AgentHubState :=
  { st0 with signals := [(1, exResolvedSignal)] }


/-- A signal whose u64 entry value exceeds i64::MAX, so that the program's
`u64 as i64` cast wraps it to a negative entry. -/
def hugeEntrySignal : Signal :=
  { id := 1, strategy_id := 1, created_at := 0, expires_at := 0,
    direction := Direction.Up, entry_value := some (2 ^ 64 - 100),
    confidence_bps := 0, status := SignalStatus.Open, result := none,
    pnl_bps := none, resolved_value := none }

/-- C1 counterexample: at entry_value = 2^64-100, resolved_value = 2^64-50,
direction Up, the program's wrapping u64-to-i64 casts give entry -100 and
resolved -50, so it returns (Win, -5000); the claim's exact formula
(resolved - entry) * 10000 / entry = 500000 / (2^64-100) asserts pnl 0. -/
theorem c1_counterexample :
    calculate_signal_result hugeEntrySignal (2 ^ 64 - 50) =
      (SignalResult.Win, -5000) ∧
    Int.tdiv ((((2 ^ 64 - 50 : Nat) : Int) - ((2 ^ 64 - 100 : Nat) : Int)) *
      10000) ((2 ^ 64 - 100 : Nat) : Int) = 0 := by
  decide

/-- C1 (amended): the result/PnL computation is a pure function of
(entry, resolved_value, direction): with entry = entry_value or 0, it
returns (Push, 0) when entry or resolved_value is 0; the result compares
resolved_value with entry as u64 (higher = Win for Up/Over/Yes, lower = Win
for Down/Under/No, equal = Push); and provided entry and resolved_value are
below 2^63 and (resolved_value - entry) * 10000 fits in i64 — so that no
cast or multiplication wraps — the PnL is
(resolved_value - entry) * 10000 / entry truncated toward zero, negated for
the Down/Under/No group; in particular entry=20000, resolved=22000 gives
(Win, 1000) for Up and (Lose, -1000) for Down.  Outside those bounds the
u64-to-i64 casts and the i64 arithmetic wrap two's-complement
(c1_counterexample). -/
theorem c1_pnl_computation (s : Signal) (v : Nat) :
    (∀ s2 : Signal, s2.entry_value = s.entry_value →
      s2.direction = s.direction →
      calculate_signal_result s2 v = calculate_signal_result s v) ∧
    ((s.entry_value.getD 0 = 0 ∨ v = 0) →
      calculate_signal_result s v = (SignalResult.Push, 0)) ∧
    (∀ e : Nat, s.entry_value.getD 0 = e → e ≠ 0 → v ≠ 0 →
      (e : Int) < 2 ^ 63 → (v : Int) < 2 ^ 63 →
      -(2 ^ 63) < ((v : Int) - (e : Int)) * 10000 →
      ((v : Int) - (e : Int)) * 10000 < 2 ^ 63 →
      calculate_signal_result s v =
        ((if e < v then
            (if downGroup s.direction then SignalResult.Lose
             else SignalResult.Win)
          else if v < e then
            (if downGroup s.direction then SignalResult.Win
             else SignalResult.Lose)
          else SignalResult.Push),
         (if downGroup s.direction then
            -(Int.tdiv (((v : Int) - (e : Int)) * 10000) (e : Int))
          else Int.tdiv (((v : Int) - (e : Int)) * 10000) (e : Int)))) ∧
    (s.entry_value = some 20000 → s.direction = Direction.Up →
      calculate_signal_result s 22000 = (SignalResult.Win, 1000)) ∧
    (s.entry_value = some 20000 → s.direction = Direction.Down →
      calculate_signal_result s 22000 = (SignalResult.Lose, -1000)) := by
  refine ⟨?_, ?_, ?_, ?_, ?_⟩
  · intro s2 h1 h2
    simp only [calculate_signal_result, h1, h2]
  · intro h
    simp only [calculate_signal_result]
    rw [if_pos h]
  · intro e he hne hnv he63 hv63 hlo hhi
    have hcond : ¬ (s.entry_value.getD 0 = 0 ∨ v = 0) := by
      rw [he]; simp [hne, hnv]
    have hwe : wrap64 ((e : Nat) : Int) = (e : Int) :=
      wrap64_eq (by omega) he63
    have hwv : wrap64 ((v : Nat) : Int) = (v : Int) :=
      wrap64_eq (by omega) hv63
    have hws : wrap64 ((v : Int) - (e : Int)) = (v : Int) - (e : Int) :=
      wrap64_eq (by omega) (by omega)
    have hwm : wrap64 (((v : Int) - (e : Int)) * 10000) =
        ((v : Int) - (e : Int)) * 10000 :=
      wrap64_eq (by omega) hhi
    have hqle : (Int.tdiv (((v : Int) - (e : Int)) * 10000)
        (e : Int)).natAbs ≤ (((v : Int) - (e : Int)) * 10000).natAbs := by
      rw [Int.natAbs_tdiv]
      exact Nat.div_le_self _ _
    have hwq : wrap64 (Int.tdiv (((v : Int) - (e : Int)) * 10000)
        (e : Int)) = Int.tdiv (((v : Int) - (e : Int)) * 10000) (e : Int) :=
      wrap64_eq (by omega) (by omega)
    have hwnq : wrap64 (-(Int.tdiv (((v : Int) - (e : Int)) * 10000)
        (e : Int))) =
        -(Int.tdiv (((v : Int) - (e : Int)) * 10000) (e : Int)) :=
      wrap64_eq (by omega) (by omega)
    cases hd : s.direction <;>
      simp [calculate_signal_result, he, hd, downGroup, hcond, gt_iff_lt, hne,
        hnv, hwe, hwv, hws, hwm, hwq, hwnq] <;>
      exact if_lt_comm v e _ _ _
  · intro h1 h2
    simp only [calculate_signal_result, h1, h2]
    decide
  · intro h1 h2
    simp only [calculate_signal_result, h1, h2]
    decide

/-- Witness for C1 at a concrete signal. -/
theorem c1_pnl_computation_witness :
    calculate_signal_result
      { id := 1, strategy_id := 1, created_at := 0, expires_at := 0,
        direction := Direction.Up, entry_value := some 20000,
        confidence_bps := 8000, status := SignalStatus.Open, result := none,
        pnl_bps := none, resolved_value := none } 22000 =
      (SignalResult.Win, 1000) :=
  (c1_pnl_computation
    { id := 1, strategy_id := 1, created_at := 0, expires_at := 0,
      direction := Direction.Up, entry_value := some 20000,
      confidence_bps := 8000, status := SignalStatus.Open, result := none,
      pnl_bps := none, resolved_value := none } 22000).2.2.2.1 rfl rfl

/-- Reachable state for the C2 counterexample: strategist 1 registers,
creates strategy 1, publishes signal 1 with entry_value 1, and the oracle
resolves it at 10^9, storing pnl_bps = 9999999990000. -/
def c2TraceState : AgentHubState :=
  (execute_operation (ctxSigned 1) (Operation.ResolveSignal 1 1000000000)
    (execute_operation (ctxSigned 1)
      (Operation.PublishSignal 1 Direction.Up 300 8000 (some 1))
      (execute_operation (ctxSigned 1)
        (Operation.CreateAgentStrategy "n" "d" MarketKind.Crypto "m" true
          true)
        (execute_operation (ctxSigned 1) (Operation.RegisterStrategist "a")
          st0).1).1).1).1

set_option maxRecDepth 8192 in
/-- C2 counterexample: on the purely local trace c2TraceState the stored row
has total_pnl_bps = 9999999990000 over 1 resolved signal, yet the program's
`as i32` cast stores avg_pnl_bps = 1316124912, not the claim's
total_pnl / total = 9999999990000. -/
theorem c2_counterexample :
    ((lookupA c2TraceState.strategy_stats 1).getD
      defaultStats).total_signals = 1 ∧
    ((lookupA c2TraceState.strategy_stats 1).getD
      defaultStats).total_pnl_bps = 9999999990000 ∧
    ((lookupA c2TraceState.strategy_stats 1).getD
      defaultStats).avg_pnl_bps = 1316124912 ∧
    (1316124912 : Int) ≠ Int.tdiv 9999999990000 1 := by
  decide

/-- C2 (amended): for every strategy, the stats recompute always completes
with the Ok response (no error outcome) and writes, for that strategy, the
row obtained by folding over exactly the loadable Resolved signals of the
strategy's id list: counts per result, win_rate_bps = winning*10000/total
(0 when total = 0), total_pnl_bps the left-to-right i64 wrapping sum of the
resolved signals' pnl_bps, avg_pnl_bps = total_pnl/total truncated toward
zero and then cast to i32 two's-complement (0 when total = 0), and
followers the current follower count.  Without the i64/i32 wraps the
avg_pnl_bps equation fails on a reachable local trace
(c2_counterexample). -/
theorem c2_stats_recompute (st : AgentHubState) (strategy_id : Nat) :
    (update_strategy_stats st strategy_id).2 = AgentHubResponse.Ok ∧
    lookupA (update_strategy_stats st strategy_id).1.strategy_stats
        strategy_id =
      some { strategy_id := strategy_id,
             total_signals := (resolvedOf st strategy_id).length,
             winning_signals :=
               countResult SignalResult.Win (resolvedOf st strategy_id),
             losing_signals :=
               countResult SignalResult.Lose (resolvedOf st strategy_id),
             push_signals :=
               countResult SignalResult.Push (resolvedOf st strategy_id),
             win_rate_bps :=
               if (resolvedOf st strategy_id).length = 0 then 0
               else countResult SignalResult.Win (resolvedOf st strategy_id) *
                 10000 / (resolvedOf st strategy_id).length,
             avg_pnl_bps :=
               if (resolvedOf st strategy_id).length = 0 then 0
               else wrap32 (Int.tdiv (sumPnl (resolvedOf st strategy_id))
                 ((resolvedOf st strategy_id).length : Int)),
             total_pnl_bps := sumPnl (resolvedOf st strategy_id),
             followers := (lookupA st.follower_count strategy_id).getD 0 } := by
  rw [update_stats_spec]
  exact ⟨rfl, lookupA_insertA_self _ _ _⟩

/-- C5: resolving a signal whose status is not Open returns the
SignalAlreadyResolved error and leaves the entire state (so the signal's
stored fields and all strategy stats) unchanged; in particular a second
resolve of a signal just resolved returns SignalAlreadyResolved, leaves the
state of the first call intact, and the signal still carries the first call's
result fields. -/
theorem c5_resolve_not_open :
    (∀ (st : AgentHubState) (sid v : Nat) (s : Signal),
      lookupA st.signals sid = some s → s.status ≠ SignalStatus.Open →
      resolve_signal st sid v =
        (st, AgentHubResponse.Error AgentHubError.SignalAlreadyResolved)) ∧
    (∀ (st st1 : AgentHubState) (sid v v2 : Nat) (r : SignalResult) (p : Int),
      resolve_signal st sid v = (st1, AgentHubResponse.SignalResolved sid r p) →
      resolve_signal st1 sid v2 =
        (st1, AgentHubResponse.Error AgentHubError.SignalAlreadyResolved) ∧
      ∃ s1 : Signal, lookupA st1.signals sid = some s1 ∧
        s1.status = SignalStatus.Resolved ∧ s1.result = some r ∧
        s1.pnl_bps = some p ∧ s1.resolved_value = some v) := by
  have base : ∀ (st : AgentHubState) (sid v : Nat) (s : Signal),
      lookupA st.signals sid = some s → s.status ≠ SignalStatus.Open →
      resolve_signal st sid v =
        (st, AgentHubResponse.Error AgentHubError.SignalAlreadyResolved) := by
    intro st sid v s hl hs
    simp [resolve_signal, hl, hs]
  refine ⟨base, ?_⟩
  intro st st1 sid v v2 r p hcall
  cases hl : lookupA st.signals sid with
  | none =>
    simp only [resolve_signal, hl] at hcall
    exact AgentHubResponse.noConfusion (congrArg Prod.snd hcall)
  | some s =>
    by_cases hs : s.status = SignalStatus.Open
    · simp only [resolve_signal, hl, hs, ne_eq, not_true_eq_false,
        if_false, update_stats_spec] at hcall
      rw [Prod.mk.injEq] at hcall
      obtain ⟨hst, hresp⟩ := hcall
      cases hresp
      have hl1 : lookupA st1.signals sid = some
          { s with status := SignalStatus.Resolved,
                   result := some (calculate_signal_result s v).1,
                   pnl_bps := some (calculate_signal_result s v).2,
                   resolved_value := some v } := by
        rw [← hst]
        exact lookupA_insertA_self _ _ _
      exact ⟨base st1 sid v2 _ hl1 (by simp), _, hl1, rfl, rfl, rfl, rfl⟩
    · rw [base st sid v s hl hs] at hcall
      exact AgentHubResponse.noConfusion (congrArg Prod.snd hcall)

/-- Witness for C5 at a concrete already-resolved signal. -/
theorem c5_resolve_not_open_witness :
    resolve_signal exResolvedState 1 120 =
      (exResolvedState,
       AgentHubResponse.Error AgentHubError.SignalAlreadyResolved) :=
  c5_resolve_not_open.1 exResolvedState 1 120 exResolvedSignal
    (by decide) (by decide)

/-- C8: an inbound SubscriptionRequest whose resolved strategist (the
authenticated signer, falling back to the subscriber) has no
SubscriptionOffer, or an offer with is_enabled = false, is silently dropped:
the handler sends no message and returns the state bit-for-bit unchanged
(subscription map, both reverse indexes and the next-subscription-id counter
included). -/
theorem c8_subscription_request_dropped (ctx : Ctx) (st : AgentHubState)
    (subscriber : Nat) (subscriber_chain_id : String) (timestamp : Nat)
    (h : ∀ o : SubscriptionOffer,
      lookupA st.subscription_offers (ctx.signer.getD subscriber) = some o →
      o.is_enabled = false) :
    execute_message ctx
      (Message.SubscriptionRequest subscriber subscriber_chain_id timestamp)
      st = (st, []) := by
  simp only [execute_message]
  cases hl : lookupA st.subscription_offers (ctx.signer.getD subscriber) with
  | none => simp
  | some o => simp [h o hl]

/-- Witness for C8: empty offer map on the strategist chain. -/
theorem c8_subscription_request_dropped_witness :
    execute_message ctx0 (Message.SubscriptionRequest 5 "chain-7" 11) st0 =
      (st0, []) :=
  c8_subscription_request_dropped ctx0 st0 5 "chain-7" 11
    (fun o ho => by simp [st0, ctx0, instantiate, lookupA] at ho)

/-- findActiveSub finds only tokens that are bound to an active subscription
of the wanted strategist, and finds one whenever the scanned token list
holds one. -/
lemma findActiveSub_spec (subscriptions : List (String × Subscription))
    (strategist : Nat) (toks : List String) :
    (∀ sub_id, findActiveSub subscriptions strategist toks = some sub_id →
      sub_id ∈ toks ∧ ∃ sub : Subscription,
        lookupA subscriptions sub_id = some sub ∧
        sub.strategist = strategist ∧ sub.is_active = true) ∧
    (findActiveSub subscriptions strategist toks = none →
      ∀ tok ∈ toks, ∀ sub : Subscription,
        lookupA subscriptions tok = some sub →
        ¬ (sub.strategist = strategist ∧ sub.is_active = true)) := by
  induction toks with
  | nil => exact ⟨fun _ h => by simp [findActiveSub] at h, fun _ t ht => by simp at ht⟩
  | cons t rest ih =>
    constructor
    · intro sub_id hfind
      cases hl : lookupA subscriptions t with
      | none =>
        simp only [findActiveSub, hl] at hfind
        obtain ⟨hmem, hex⟩ := ih.1 sub_id hfind
        exact ⟨List.mem_cons_of_mem _ hmem, hex⟩
      | some sub =>
        by_cases hc : sub.strategist = strategist ∧ sub.is_active
        · simp only [findActiveSub, hl, if_pos hc, Option.some.injEq] at hfind
          subst hfind
          exact ⟨List.mem_cons_self _ _, sub, hl, hc.1, hc.2⟩
        · simp only [findActiveSub, hl, if_neg hc] at hfind
          obtain ⟨hmem, hex⟩ := ih.1 sub_id hfind
          exact ⟨List.mem_cons_of_mem _ hmem, hex⟩
    · intro hfind tok htok sub hl hcond
      cases hlt : lookupA subscriptions t with
      | none =>
        simp only [findActiveSub, hlt] at hfind
        rcases List.mem_cons.mp htok with h1 | h1
        · subst h1; rw [hlt] at hl; cases hl
        · exact ih.2 hfind tok h1 sub hl hcond
      | some subt =>
        by_cases hc : subt.strategist = strategist ∧ subt.is_active
        · simp only [findActiveSub, hlt, if_pos hc] at hfind
          cases hfind
        · simp only [findActiveSub, hlt, if_neg hc] at hfind
          rcases List.mem_cons.mp htok with h1 | h1
          · subst h1; rw [hlt] at hl
            cases hl
            exact hc ⟨hcond.1, hcond.2⟩
          · exact ih.2 hfind tok h1 sub hl hcond

/-- C9: unsubscribe scans the subscriber's local tokens for the first active
one whose strategist matches; with none it fails with NotSubscribed and
changes nothing; with one it flips is_active to false on that single record:
the rest of the state is carried over verbatim and every other subscriptions
key is untouched, and the execute_operation wrapper emits no cross-shard
message for it. -/
theorem c9_unsubscribe_local_only (st : AgentHubState)
    (subscriber strategist : Nat) :
    (findActiveSub st.subscriptions strategist
        ((lookupA st.subscriptions_by_subscriber subscriber).getD []) = none →
      unsubscribe_from_strategist st subscriber strategist =
        (st, AgentHubResponse.Error AgentHubError.NotSubscribed) ∧
      (∀ tok ∈ (lookupA st.subscriptions_by_subscriber subscriber).getD [],
        ∀ sub : Subscription, lookupA st.subscriptions tok = some sub →
        ¬ (sub.strategist = strategist ∧ sub.is_active = true))) ∧
    (∀ sub_id : String,
      findActiveSub st.subscriptions strategist
        ((lookupA st.subscriptions_by_subscriber subscriber).getD []) =
          some sub_id →
      ∃ sub : Subscription, lookupA st.subscriptions sub_id = some sub ∧
        sub.strategist = strategist ∧ sub.is_active = true ∧
        unsubscribe_from_strategist st subscriber strategist =
          ({ st with subscriptions :=
              insertA st.subscriptions sub_id { sub with is_active := false } },
           AgentHubResponse.Unsubscribed strategist) ∧
        (∀ k : String, k ≠ sub_id →
          lookupA (insertA st.subscriptions sub_id
            { sub with is_active := false }) k = lookupA st.subscriptions k)) ∧
    (∀ ctx : Ctx, ctx.signer = some subscriber →
      (execute_operation ctx (Operation.UnsubscribeFromStrategist strategist)
        st).2.2 = []) := by
  refine ⟨?_, ?_, ?_⟩
  · intro hfind
    refine ⟨by simp [unsubscribe_from_strategist, hfind], ?_⟩
    exact (findActiveSub_spec st.subscriptions strategist _).2 hfind
  · intro sub_id hfind
    obtain ⟨_, sub, hl, hstrat, hact⟩ :=
      (findActiveSub_spec st.subscriptions strategist _).1 sub_id hfind
    refine ⟨sub, hl, hstrat, hact, ?_, ?_⟩
    · simp [unsubscribe_from_strategist, hfind, hl]
    · intro k hk
      exact lookupA_insertA_ne _ _ _ _ hk
  · intro ctx hsig
    simp [execute_operation, hsig]

/-- Witness for C9: the NotSubscribed branch on an empty state. -/
theorem c9_unsubscribe_local_only_witness :
    unsubscribe_from_strategist st0 4 6 =
      (st0, AgentHubResponse.Error AgentHubError.NotSubscribed) :=
  ((c9_unsubscribe_local_only st0 4 6).1 (by decide)).1

/-! ### The reachable-state transition system -/

/-- Per-signal field invariant of spec.md paragraph 3: result, pnl_bps and
resolved_value are all None while status is Open, and all Some iff status is
Resolved. -/
def wfSignal (s : Signal) : Prop :=
  (s.status = SignalStatus.Open →
    s.result = none ∧ s.pnl_bps = none ∧ s.resolved_value = none) ∧
  ((s.result.isSome ∧ s.pnl_bps.isSome ∧ s.resolved_value.isSome) ↔
    s.status = SignalStatus.Resolved)

instance (s : Signal) : Decidable (wfSignal s) := by
  unfold wfSignal; infer_instance

/-- A message is well formed when a SignalBroadcast carries a signal
satisfying the per-signal field invariant; other messages are unconstrained. -/
def wfMessage : Message → Prop
  | Message.SignalBroadcast s _ _ => wfSignal s
  | _ => True

/-- All stored signals satisfy the per-signal field invariant. -/
def SignalsWF (st : AgentHubState) : Prop := ∀ p ∈ st.signals, wfSignal p.2

/-- All stored stats rows satisfy
total_signals = winning + losing + push. -/
def StatsEq (st : AgentHubState) : Prop :=
  ∀ p ∈ st.strategy_stats,
    p.2.total_signals =
      p.2.winning_signals + p.2.losing_signals + p.2.push_signals

instance (st : AgentHubState) : Decidable (SignalsWF st) := by
  unfold SignalsWF; infer_instance

instance (st : AgentHubState) : Decidable (StatsEq st) := by
  unfold StatsEq; infer_instance

/-- The combined inductive invariant. -/
def Inv (st : AgentHubState) : Prop := SignalsWF st ∧ StatsEq st

/-- One transition: any operation in any runtime context, or any inbound
message that is well formed (the restriction touches only SignalBroadcast). -/
inductive Step : AgentHubState → AgentHubState → Prop
  | op (ctx : Ctx) (o : Operation) (st : AgentHubState) :
      Step st (execute_operation ctx o st).1
  | msg (ctx : Ctx) (m : Message) (st : AgentHubState) (hm : wfMessage m) :
      Step st (execute_message ctx m st).1

/-- Reachability from a freshly instantiated state. -/
def Reachable (st : AgentHubState) : Prop :=
  ∃ (ctx : Ctx) (hub : String),
    Relation.ReflTransGen Step (instantiate ctx hub) st

lemma lookupA_mem {α β : Type} [DecidableEq α]
    {m : List (α × β)} {k : α} {v : β} (h : lookupA m k = some v) :
    (k, v) ∈ m := by
  induction m with
  | nil => cases h
  | cons p rest ih =>
    rw [lookupA_cons] at h
    by_cases hp : p.1 = k
    · rw [if_pos hp] at h
      cases h
      have hpp : (k, p.2) = p := by
        rw [← hp]
      rw [hpp]
      exact List.mem_cons_self _ _
    · rw [if_neg hp] at h
      exact List.mem_cons_of_mem _ (ih h)

lemma mem_loadResolved {signals : List (Nat × Signal)} {ids : List Nat}
    {s : Signal} (h : s ∈ loadResolved signals ids) :
    (∃ k, (k, s) ∈ signals) ∧ s.status = SignalStatus.Resolved := by
  rw [loadResolved, List.mem_filterMap] at h
  obtain ⟨sid, _, hf⟩ := h
  cases hl : lookupA signals sid with
  | none => rw [hl] at hf; cases hf
  | some s2 =>
    simp only [hl] at hf
    by_cases hs : s2.status = SignalStatus.Resolved
    · rw [if_pos hs] at hf
      cases hf
      exact ⟨⟨sid, lookupA_mem hl⟩, hs⟩
    · rw [if_neg hs] at hf
      cases hf

lemma length_eq_counts (l : List Signal)
    (h : ∀ s ∈ l, (s.result).isSome) :
    l.length = countResult SignalResult.Win l +
      countResult SignalResult.Lose l + countResult SignalResult.Push l := by
  induction l with
  | nil => rfl
  | cons s rest ih =>
    have hs := h s (List.mem_cons_self _ _)
    have hrest := ih (fun t ht => h t (List.mem_cons_of_mem _ ht))
    cases hr : s.result with
    | none => rw [hr] at hs; cases hs
    | some r =>
      cases r <;>
        simp [countResult, List.filter_cons, hr, List.length_cons] at hrest ⊢ <;>
        omega

lemma statsRow_eq (st : AgentHubState) (sid : Nat) (h : SignalsWF st) :
    (statsRow st sid).total_signals =
      (statsRow st sid).winning_signals + (statsRow st sid).losing_signals +
        (statsRow st sid).push_signals := by
  have : ∀ s ∈ resolvedOf st sid, (s.result).isSome := by
    intro s hsmem
    obtain ⟨⟨k, hk⟩, hres⟩ := mem_loadResolved hsmem
    have hw := h (k, s) hk
    exact (hw.2.mpr hres).1
  simpa [statsRow] using length_eq_counts _ this

/-- Carrying the invariant across a state whose signals and stats maps are
those of an invariant-satisfying state. -/
lemma inv_of_same {st st2 : AgentHubState} (h : Inv st)
    (hsig : st2.signals = st.signals)
    (hstats : st2.strategy_stats = st.strategy_stats) : Inv st2 := by
  constructor
  · intro p hp
    exact h.1 p (by rw [← hsig]; exact hp)
  · intro p hp
    exact h.2 p (by rw [← hstats]; exact hp)

lemma inv_update_stats {st : AgentHubState} (h : Inv st) (sid : Nat) :
    Inv (update_strategy_stats st sid).1 := by
  rw [update_stats_spec]
  constructor
  · exact h.1
  · intro p hp
    rcases mem_insertA hp with h1 | h1
    · rw [h1]
      exact statsRow_eq st sid h.1
    · exact h.2 p h1

/-! ### Invariant preservation, operation by operation -/

lemma inv_register {st : AgentHubState} (ctx : Ctx) (owner : Nat) (d : String)
    (h : Inv st) : Inv (register_strategist ctx st owner d).1 := by
  by_cases hc : containsA st.strategists owner <;>
    exact inv_of_same h (by simp [register_strategist, hc])
      (by simp [register_strategist, hc])

lemma inv_create {st : AgentHubState} (ctx : Ctx) (owner : Nat)
    (n d : String) (mk : MarketKind) (bm : String) (pub ai : Bool)
    (h : Inv st) : Inv (create_strategy ctx st owner n d mk bm pub ai).1 := by
  by_cases hc : containsA st.strategists owner
  · constructor
    · intro q hq
      refine h.1 q ?_
      simpa [create_strategy, hc] using hq
    · intro q hq
      simp only [create_strategy, hc, not_true_eq_false, if_false] at hq
      rcases mem_insertA hq with h1 | h1
      · rw [h1]
        simp [defaultStats]
      · exact h.2 q h1
  · exact inv_of_same h (by simp [create_strategy, hc])
      (by simp [create_strategy, hc])

lemma inv_publish {st : AgentHubState} (ctx : Ctx) (owner sid : Nat)
    (dir : Direction) (hor conf : Nat) (ev : Option Nat) (h : Inv st) :
    Inv (publish_signal ctx st owner sid dir hor conf ev).1 := by
  by_cases hc : conf > 10000
  · exact inv_of_same h (by simp [publish_signal, hc])
      (by simp [publish_signal, hc])
  · cases hl : lookupA st.strategies sid with
    | none =>
      exact inv_of_same h (by simp [publish_signal, hc, hl])
        (by simp [publish_signal, hc, hl])
    | some strategy =>
      by_cases how : strategy.owner = owner
      · constructor
        · intro q hq
          simp only [publish_signal, hc, if_false, hl, how, ne_eq,
            not_true_eq_false] at hq
          rcases mem_insertA hq with h1 | h1
          · rw [h1]
            simp [wfSignal]
          · exact h.1 q h1
        · intro q hq
          refine h.2 q ?_
          simpa [publish_signal, hc, hl, how] using hq
      · have hne : strategy.owner ≠ owner := how
        exact inv_of_same h (by simp [publish_signal, hc, hl, hne])
          (by simp [publish_signal, hc, hl, hne])

lemma inv_resolve {st : AgentHubState} (sid v : Nat) (h : Inv st) :
    Inv (resolve_signal st sid v).1 := by
  cases hl : lookupA st.signals sid with
  | none =>
    exact inv_of_same h (by simp [resolve_signal, hl])
      (by simp [resolve_signal, hl])
  | some s =>
    by_cases hs : s.status = SignalStatus.Open
    · have h1 : Inv { st with signals :=
          (insertA st.signals sid
            { s with status := SignalStatus.Resolved,
                     result := some (calculate_signal_result s v).1,
                     pnl_bps := some (calculate_signal_result s v).2,
                     resolved_value := some v }) } := by
        constructor
        · intro q hq
          rcases mem_insertA hq with h2 | h2
          · rw [h2]
            simp [wfSignal]
          · exact h.1 q h2
        · exact h.2
      have h2 := inv_update_stats h1 s.strategy_id
      simpa [resolve_signal, hl, hs] using h2
    · exact inv_of_same h (by simp [resolve_signal, hl, hs])
        (by simp [resolve_signal, hl, hs])

/-- Characterization of a successful cancel. -/
lemma cancel_success {st : AgentHubState} {owner sid : Nat} {s : Signal}
    {strat : AgentStrategy}
    (hl : lookupA st.signals sid = some s)
    (hst : lookupA st.strategies s.strategy_id = some strat)
    (how : strat.owner = owner) (hso : s.status = SignalStatus.Open) :
    cancel_signal st owner sid =
      ({ st with signals :=
          (insertA st.signals sid { s with status := SignalStatus.Cancelled }) },
       AgentHubResponse.SignalCancelled sid) := by
  simp [cancel_signal, hl, hst, how, hso]

/-- Characterization of a cancel rejected for a non-Open signal. -/
lemma cancel_not_open {st : AgentHubState} {owner sid : Nat} {s : Signal}
    {strat : AgentStrategy}
    (hl : lookupA st.signals sid = some s)
    (hst : lookupA st.strategies s.strategy_id = some strat)
    (how : strat.owner = owner) (hso : s.status ≠ SignalStatus.Open) :
    cancel_signal st owner sid =
      (st, AgentHubResponse.Error AgentHubError.SignalNotOpen) := by
  simp [cancel_signal, hl, hst, how, hso]

lemma inv_cancel {st : AgentHubState} (owner sid : Nat) (h : Inv st) :
    Inv (cancel_signal st owner sid).1 := by
  cases hl : lookupA st.signals sid with
  | none =>
    exact inv_of_same h (by simp [cancel_signal, hl])
      (by simp [cancel_signal, hl])
  | some s =>
    cases hst : lookupA st.strategies s.strategy_id with
    | none =>
      exact inv_of_same h (by simp [cancel_signal, hl, hst])
        (by simp [cancel_signal, hl, hst])
    | some strat =>
      by_cases how : strat.owner = owner
      · by_cases hso : s.status = SignalStatus.Open
        · rw [cancel_success hl hst how hso]
          constructor
          · intro q hq
            rcases mem_insertA hq with h2 | h2
            · rw [h2]
              have hw : wfSignal s := h.1 (sid, s) (lookupA_mem hl)
              obtain ⟨hr, hpn, hrv⟩ := hw.1 hso
              constructor
              · intro hopen
                cases hopen
              · simp [hr, hpn, hrv]
            · exact h.1 q h2
          · exact h.2
        · rw [cancel_not_open hl hst how hso]
          exact h
      · have hne : strat.owner ≠ owner := how
        exact inv_of_same h (by simp [cancel_signal, hl, hst, hne])
          (by simp [cancel_signal, hl, hst, hne])

/-- Characterization of a successful follow: relation inserted, counter
incremented, and in the stored stats row only the followers field is
replaced — no recompute of the other fields happens. -/
lemma follow_success {st : AgentHubState} (ctx : Ctx) {fo sid : Nat}
    (auto : Bool) (mx : Nat)
    (hs : containsA st.strategies sid = true)
    (hf : containsA st.followers
      { strategy_id := sid, follower := fo } = false) :
    follow_strategy ctx st fo sid auto mx =
      ({ st with
          followers := insertA st.followers
            { strategy_id := sid, follower := fo }
            { strategy_id := sid, follower := fo, auto_copy := auto,
              max_exposure_units := mx, created_at := ctx.time },
          follower_count := insertA st.follower_count sid
            ((lookupA st.follower_count sid).getD 0 + 1),
          strategy_stats := insertA st.strategy_stats sid
            { (lookupA st.strategy_stats sid).getD defaultStats with
                followers := (lookupA st.follower_count sid).getD 0 + 1 } },
       AgentHubResponse.Followed sid) := by
  simp [follow_strategy, hs, hf]

/-- Characterization of a successful unfollow: relation removed, counter
decremented with saturation at zero (Nat subtraction), and in the stored
stats row only the followers field is replaced. -/
lemma unfollow_success {st : AgentHubState} {fo sid : Nat}
    (hf : containsA st.followers
      { strategy_id := sid, follower := fo } = true) :
    unfollow_strategy st fo sid =
      ({ st with
          followers := removeA st.followers
            { strategy_id := sid, follower := fo },
          follower_count := insertA st.follower_count sid
            ((lookupA st.follower_count sid).getD 1 - 1),
          strategy_stats := insertA st.strategy_stats sid
            { (lookupA st.strategy_stats sid).getD defaultStats with
                followers := (lookupA st.follower_count sid).getD 1 - 1 } },
       AgentHubResponse.Unfollowed sid) := by
  simp [unfollow_strategy, hf]

lemma statsEq_getD (st : AgentHubState) (sid : Nat) (h : StatsEq st) :
    ((lookupA st.strategy_stats sid).getD defaultStats).total_signals =
      ((lookupA st.strategy_stats sid).getD defaultStats).winning_signals +
      ((lookupA st.strategy_stats sid).getD defaultStats).losing_signals +
      ((lookupA st.strategy_stats sid).getD defaultStats).push_signals := by
  cases hl : lookupA st.strategy_stats sid with
  | none => simp [defaultStats]
  | some row => simpa using h (sid, row) (lookupA_mem hl)

lemma inv_follow {st : AgentHubState} (ctx : Ctx) (fo sid : Nat)
    (auto : Bool) (mx : Nat) (h : Inv st) :
    Inv (follow_strategy ctx st fo sid auto mx).1 := by
  by_cases hs : containsA st.strategies sid
  · by_cases hf : containsA st.followers
        { strategy_id := sid, follower := fo }
    · exact inv_of_same h (by simp [follow_strategy, hs, hf])
        (by simp [follow_strategy, hs, hf])
    · rw [follow_success ctx auto mx hs (by simpa using hf)]
      refine ⟨h.1, ?_⟩
      intro q hq
      rcases mem_insertA hq with h1 | h1
      · rw [h1]
        simpa using statsEq_getD st sid h.2
      · exact h.2 q h1
  · exact inv_of_same h (by simp [follow_strategy, hs])
      (by simp [follow_strategy, hs])

lemma inv_unfollow {st : AgentHubState} (fo sid : Nat) (h : Inv st) :
    Inv (unfollow_strategy st fo sid).1 := by
  by_cases hf : containsA st.followers { strategy_id := sid, follower := fo }
  · rw [unfollow_success hf]
    refine ⟨h.1, ?_⟩
    intro q hq
    rcases mem_insertA hq with h1 | h1
    · rw [h1]
      simpa using statsEq_getD st sid h.2
    · exact h.2 q h1
  · exact inv_of_same h (by simp [unfollow_strategy, hf])
      (by simp [unfollow_strategy, hf])

lemma inv_enable {st : AgentHubState} (owner : Nat) (d : Option String)
    (h : Inv st) : Inv (enable_subscription st owner d).1 := by
  by_cases hc : containsA st.strategists owner <;>
    exact inv_of_same h (by simp [enable_subscription, hc])
      (by simp [enable_subscription, hc])

lemma inv_disable {st : AgentHubState} (owner : Nat) (h : Inv st) :
    Inv (disable_subscription st owner).1 := by
  cases hl : lookupA st.subscription_offers owner with
  | none =>
    exact inv_of_same h (by simp [disable_subscription, hl])
      (by simp [disable_subscription, hl])
  | some o =>
    exact inv_of_same h (by simp [disable_subscription, hl])
      (by simp [disable_subscription, hl])

lemma inv_subscribe {st : AgentHubState} (ctx : Ctx) (sub strat : Nat)
    (cid : String) (h : Inv st) :
    Inv (subscribe_to_strategist ctx st sub strat cid).1 := by
  by_cases hc : (findActiveSub st.subscriptions strat
      ((lookupA st.subscriptions_by_subscriber sub).getD [])).isSome <;>
    exact inv_of_same h (by simp [subscribe_to_strategist, hc])
      (by simp [subscribe_to_strategist, hc])

lemma inv_unsubscribe {st : AgentHubState} (sub strat : Nat) (h : Inv st) :
    Inv (unsubscribe_from_strategist st sub strat).1 := by
  cases hfind : findActiveSub st.subscriptions strat
      ((lookupA st.subscriptions_by_subscriber sub).getD []) with
  | none =>
    exact inv_of_same h
      (by simp [unsubscribe_from_strategist, hfind])
      (by simp [unsubscribe_from_strategist, hfind])
  | some sub_id =>
    cases hl : lookupA st.subscriptions sub_id with
    | none =>
      exact inv_of_same h
        (by simp [unsubscribe_from_strategist, hfind, hl])
        (by simp [unsubscribe_from_strategist, hfind, hl])
    | some s =>
      exact inv_of_same h
        (by simp [unsubscribe_from_strategist, hfind, hl])
        (by simp [unsubscribe_from_strategist, hfind, hl])

lemma inv_message {st : AgentHubState} (ctx : Ctx) (m : Message)
    (hm : wfMessage m) (h : Inv st) : Inv (execute_message ctx m st).1 := by
  cases m with
  | SignalResolved a b c d => exact inv_update_stats h b
  | SubscriptionRequest sub cid ts =>
    cases hl : lookupA st.subscription_offers (ctx.signer.getD sub) with
    | none =>
      exact inv_of_same h (by simp [execute_message, hl])
        (by simp [execute_message, hl])
    | some offer =>
      by_cases hen : offer.is_enabled <;>
        exact inv_of_same h (by simp [execute_message, hl, hen])
          (by simp [execute_message, hl, hen])
  | SubscriptionConfirmed a b c d =>
    exact inv_of_same h (by simp [execute_message])
      (by simp [execute_message])
  | SignalBroadcast s n strat =>
    constructor
    · intro q hq
      have hq2 : q ∈ insertA st.signals s.id s := by
        simpa [execute_message] using hq
      rcases mem_insertA hq2 with h1 | h1
      · rw [h1]
        exact hm
      · exact h.1 q h1
    · intro q hq
      refine h.2 q ?_
      simpa [execute_message] using hq

lemma inv_step {st st2 : AgentHubState} (h : Inv st) (hs : Step st st2) :
    Inv st2 := by
  cases hs with
  | op ctx o st =>
    cases hsig : ctx.signer with
    | none => simpa [execute_operation, hsig] using h
    | some owner =>
      cases o with
      | RegisterStrategist d =>
        simpa [execute_operation, hsig] using inv_register ctx owner d h
      | CreateAgentStrategy n d mk bm pub ai =>
        simpa [execute_operation, hsig] using
          inv_create ctx owner n d mk bm pub ai h
      | PublishSignal sid dir hor conf ev =>
        simpa [execute_operation, hsig] using
          inv_publish ctx owner sid dir hor conf ev h
      | ResolveSignal sid v =>
        simpa [execute_operation, hsig] using inv_resolve sid v h
      | CancelSignal sid =>
        simpa [execute_operation, hsig] using inv_cancel owner sid h
      | FollowStrategy sid auto mx =>
        simpa [execute_operation, hsig] using
          inv_follow ctx owner sid auto mx h
      | UnfollowStrategy sid =>
        simpa [execute_operation, hsig] using inv_unfollow owner sid h
      | UpdateStats sid =>
        simpa [execute_operation, hsig] using inv_update_stats h sid
      | EnableSubscription d =>
        simpa [execute_operation, hsig] using inv_enable owner d h
      | DisableSubscription =>
        simpa [execute_operation, hsig] using inv_disable owner h
      | SubscribeToStrategist strat cid =>
        simpa [execute_operation, hsig] using
          inv_subscribe ctx owner strat cid h
      | UnsubscribeFromStrategist strat =>
        simpa [execute_operation, hsig] using inv_unsubscribe owner strat h
  | msg ctx m st hm => exact inv_message ctx m hm h

lemma inv_init (ctx : Ctx) (hub : String) : Inv (instantiate ctx hub) := by
  constructor <;> intro p hp <;> simp [instantiate] at hp

lemma inv_reachable {st : AgentHubState} (h : Reachable st) : Inv st := by
  obtain ⟨ctx, hub, hr⟩ := h
  induction hr with
  | refl => exact inv_init ctx hub
  | tail h1 h2 ih => exact inv_step ih h2

/-! ### Removal of a non-Resolved signal does not affect a recompute -/

lemma lookupA_removeA_self {α β : Type} [DecidableEq α]
    (m : List (α × β)) (k : α) : lookupA (removeA m k) k = none := by
  induction m with
  | nil => rfl
  | cons p rest ih =>
    by_cases hp : p.1 = k
    · have h1 : (p :: rest).filter (fun q => q.1 ≠ k) =
          rest.filter (fun q => q.1 ≠ k) := by
        simp [List.filter_cons, hp]
      rw [removeA, h1]
      exact ih
    · have h1 : (p :: rest).filter (fun q => q.1 ≠ k) =
          p :: rest.filter (fun q => q.1 ≠ k) := by
        simp [List.filter_cons, hp]
      rw [removeA, h1, lookupA_cons, if_neg hp]
      exact ih

lemma loadResolved_removeA (signals : List (Nat × Signal)) (sid : Nat)
    (s : Signal) (hl : lookupA signals sid = some s)
    (hs : s.status ≠ SignalStatus.Resolved) (ids : List Nat) :
    loadResolved (removeA signals sid) ids = loadResolved signals ids := by
  induction ids with
  | nil => rfl
  | cons x rest ih =>
    by_cases hx : x = sid
    · subst hx
      simp only [loadResolved, List.filterMap_cons] at ih ⊢
      rw [lookupA_removeA_self, hl]
      simp [hs, ih]
    · have hsame : lookupA (removeA signals sid) x = lookupA signals x :=
        lookupA_filter_ne signals sid x hx
      simp only [loadResolved, List.filterMap_cons] at ih ⊢
      rw [hsame]
      cases lookupA signals x with
      | none => exact ih
      | some s2 =>
        by_cases h2 : s2.status = SignalStatus.Resolved
        · simp [h2, ih]
        · simp [h2, ih]

lemma statsRow_remove (st : AgentHubState) (sid strategy_id : Nat)
    (s : Signal) (hl : lookupA st.signals sid = some s)
    (hs : s.status ≠ SignalStatus.Resolved) :
    statsRow { st with signals := removeA st.signals sid } strategy_id =
      statsRow st strategy_id := by
  simp only [statsRow, resolvedOf]
  rw [loadResolved_removeA st.signals sid s hl hs]

/-! ### Concrete objects for counterexamples and witnesses -/

/-- A concrete strategy owned by account 1. -/
def exStrategy : AgentStrategy :=
  { id := 1, owner := 1, name := "n", description := "d",
    market_kind := MarketKind.Crypto, base_market := "m", is_public := true,
    is_ai_controlled := true, created_at := 0 }

/-- A concrete state with one strategy and one resolved signal. -/
def exC6State : AgentHubState :=
  { st0 with strategies := [(1, exStrategy)],
             signals := [(1, exResolvedSignal)] }

/-- An externally supplied Signal record with status Resolved but no result
fields — legal on the wire, violating the stats identity when upserted. -/
def badResolvedSignal : Signal :=
  { id := 1, strategy_id := 1, created_at := 0, expires_at := 0,
    direction := Direction.Up, entry_value := some 100, confidence_bps := 0,
    status := SignalStatus.Resolved, result := none, pnl_bps := none,
    resolved_value := none }

/-- An externally supplied Signal record with status Open but populated
result fields — legal on the wire, violating the field invariant when
upserted. -/
def badOpenSignal : Signal :=
  { id := 2, strategy_id := 1, created_at := 0, expires_at := 0,
    direction := Direction.Up, entry_value := some 100, confidence_bps := 0,
    status := SignalStatus.Open, result := some SignalResult.Win,
    pnl_bps := some 5, resolved_value := some 1 }

/-- A well-formed broadcast Signal that overwrites signal 1 with a different
pnl_bps than the locally resolved one. -/
def tweakedSignal : Signal :=
  { id := 1, strategy_id := 1, created_at := 0, expires_at := 0,
    direction := Direction.Up, entry_value := some 100, confidence_bps := 0,
    status := SignalStatus.Resolved, result := some SignalResult.Win,
    pnl_bps := some 5, resolved_value := some 110 }

/-- Reachable state: strategist 1 registers, creates strategy 1, publishes
signal 1 (entry 100) and the oracle resolves it at 110. -/
def exResolvedTrace : AgentHubState :=
  (execute_operation (ctxSigned 1) (Operation.ResolveSignal 1 110)
    (execute_operation (ctxSigned 1)
      (Operation.PublishSignal 1 Direction.Up 300 8000 (some 100))
      (execute_operation (ctxSigned 1)
        (Operation.CreateAgentStrategy "n" "d" MarketKind.Crypto "m" true
          true)
        (execute_operation (ctxSigned 1) (Operation.RegisterStrategist "a")
          st0).1).1).1).1

/-- Reachable state for C3: two published signals, a SignalBroadcast that
overwrites signal 1 with badResolvedSignal, then a resolve of signal 2. -/
def c3TraceState : AgentHubState :=
  (execute_operation (ctxSigned 1) (Operation.ResolveSignal 2 110)
    (execute_message (ctxSigned 1)
      (Message.SignalBroadcast badResolvedSignal "n" 1)
      (execute_operation (ctxSigned 1)
        (Operation.PublishSignal 1 Direction.Up 300 8000 (some 100))
        (execute_operation (ctxSigned 1)
          (Operation.PublishSignal 1 Direction.Up 300 8000 (some 100))
          (execute_operation (ctxSigned 1)
            (Operation.CreateAgentStrategy "n" "d" MarketKind.Crypto "m"
              true true)
            (execute_operation (ctxSigned 1)
              (Operation.RegisterStrategist "a") st0).1).1).1).1).1).1

/-- The follow call of the C7 scenario: after exResolvedTrace, a broadcast
overwrites signal 1 with tweakedSignal (pnl 5), then account 2 follows. -/
def c7FollowStep : AgentHubState × AgentHubResponse × List (Nat × Message) :=
  execute_operation (ctxSigned 2) (Operation.FollowStrategy 1 false 0)
    (execute_message (ctxSigned 1)
      (Message.SignalBroadcast tweakedSignal "n" 1) exResolvedTrace).1

/-- The subscriber-side state of the C10 scenario: a SubscriptionConfirmed
for strategist 20 has been handled for signer 10, leaving an active local
subscription. -/
def c10SetupState : AgentHubState :=
  (execute_message (ctxSigned 10)
    (Message.SubscriptionConfirmed "tok" 20 "cs" 999) st0).1

/-- C3 counterexample: in the transition system with unrestricted
SignalBroadcast (as the claim states it), a broadcast can overwrite a listed
signal with a Resolved record carrying result = none; the next resolve then
stores a stats row with total_signals = 2 but only one classified signal, so
the identity fails after a resolve call. -/
theorem c3_counterexample : ¬ StatsEq c3TraceState := by decide

/-- C3 (amended): when every delivered SignalBroadcast carries a signal
satisfying the per-signal field invariant (result present when Resolved —
the wfMessage restriction of Step), then after every resolve operation on a
reachable state, every stored stats row satisfies
total_signals = winning + losing + push. -/
theorem c3_stats_identity (st : AgentHubState) (h : Reachable st) (ctx : Ctx)
    (sid v : Nat) :
    ∀ p ∈ (execute_operation ctx (Operation.ResolveSignal sid v)
        st).1.strategy_stats,
      p.2.total_signals =
        p.2.winning_signals + p.2.losing_signals + p.2.push_signals :=
  (inv_step (inv_reachable h)
    (Step.op ctx (Operation.ResolveSignal sid v) st)).2

/-- Witness for C3 at the freshly instantiated state. -/
theorem c3_stats_identity_witness :
    StatsEq (execute_operation ctx0 (Operation.ResolveSignal 1 110) st0).1 :=
  c3_stats_identity st0 ⟨ctx0, "hub", Relation.ReflTransGen.refl⟩ ctx0 1 110

/-- C4 counterexample: the SignalBroadcast handler upserts the externally
supplied record unchecked, so handling a broadcast whose signal has status
Open and result = some from a reachable state yields a stored signal
violating the field invariant — the handler does not preserve it. -/
theorem c4_counterexample :
    ¬ SignalsWF
      (execute_message ctx0 (Message.SignalBroadcast badOpenSignal "n" 1)
        st0).1 := by
  decide

/-- C4 (amended): in every reachable state of the transition system whose
SignalBroadcast messages are restricted to signals satisfying the field
invariant (wfMessage), every stored signal has result/pnl_bps/resolved_value
all none while status is Open, and all some exactly when status is
Resolved; every operation and the other three message handlers preserve
this unconditionally. -/
theorem c4_field_invariant (st : AgentHubState) (h : Reachable st) :
    ∀ p ∈ st.signals,
      (p.2.status = SignalStatus.Open →
        p.2.result = none ∧ p.2.pnl_bps = none ∧
          p.2.resolved_value = none) ∧
      ((p.2.result.isSome ∧ p.2.pnl_bps.isSome ∧
          p.2.resolved_value.isSome) ↔
        p.2.status = SignalStatus.Resolved) :=
  (inv_reachable h).1

/-- Witness for C4 at the freshly instantiated state. -/
theorem c4_field_invariant_witness : SignalsWF st0 :=
  c4_field_invariant st0 ⟨ctx0, "hub", Relation.ReflTransGen.refl⟩

/-- C6 counterexample: on the reachable state exResolvedTrace the strategy
owner cancels the already-Resolved signal 1 and receives the SignalNotOpen
error, not SignalAlreadyResolved as the claim states — the code uses one
non-Open check for both the Resolved and the Cancelled case. -/
theorem c6_counterexample :
    (execute_operation (ctxSigned 1) (Operation.CancelSignal 1)
        exResolvedTrace).2.1 =
      AgentHubResponse.Error AgentHubError.SignalNotOpen ∧
    AgentHubError.SignalNotOpen ≠ AgentHubError.SignalAlreadyResolved := by
  decide

/-- C6 (amended): when the caller owns the strategy, cancelling a non-Open
(Resolved or Cancelled) signal fails with SignalNotOpen and changes nothing;
cancelling an Open signal succeeds exactly once — it sets the status to
Cancelled and a repeated cancel fails with SignalNotOpen; and a Cancelled
signal is excluded from every stats recomputation: a recompute on a state
holding it writes exactly the stats a recompute would write with that
signal removed. -/
theorem c6_cancel_semantics :
    (∀ (st : AgentHubState) (owner sid : Nat) (s : Signal)
        (strat : AgentStrategy),
      lookupA st.signals sid = some s →
      lookupA st.strategies s.strategy_id = some strat →
      strat.owner = owner → s.status ≠ SignalStatus.Open →
      cancel_signal st owner sid =
        (st, AgentHubResponse.Error AgentHubError.SignalNotOpen)) ∧
    (∀ (st : AgentHubState) (owner sid : Nat) (s : Signal)
        (strat : AgentStrategy),
      lookupA st.signals sid = some s →
      lookupA st.strategies s.strategy_id = some strat →
      strat.owner = owner → s.status = SignalStatus.Open →
      cancel_signal st owner sid =
        ({ st with signals :=
            (insertA st.signals sid
              { s with status := SignalStatus.Cancelled }) },
         AgentHubResponse.SignalCancelled sid) ∧
      (cancel_signal (cancel_signal st owner sid).1 owner sid).2 =
        AgentHubResponse.Error AgentHubError.SignalNotOpen) ∧
    (∀ (st : AgentHubState) (strategy_id sid : Nat) (s : Signal),
      lookupA st.signals sid = some s →
      s.status = SignalStatus.Cancelled →
      (update_strategy_stats st strategy_id).1.strategy_stats =
        (update_strategy_stats { st with signals := removeA st.signals sid }
          strategy_id).1.strategy_stats) := by
  refine ⟨?_, ?_, ?_⟩
  · intro st owner sid s strat hl hst how hso
    exact cancel_not_open hl hst how hso
  · intro st owner sid s strat hl hst how hso
    have h1 := cancel_success hl hst how hso
    refine ⟨h1, ?_⟩
    have hl2 : lookupA ({ st with signals :=
        (insertA st.signals sid
          { s with status := SignalStatus.Cancelled }) } :
          AgentHubState).signals sid =
        some { s with status := SignalStatus.Cancelled } :=
      lookupA_insertA_self _ _ _
    have hst2 : lookupA ({ st with signals :=
        (insertA st.signals sid
          { s with status := SignalStatus.Cancelled }) } :
          AgentHubState).strategies
        ({ s with status := SignalStatus.Cancelled } : Signal).strategy_id =
        some strat := hst
    have hne2 : ({ s with status := SignalStatus.Cancelled } :
        Signal).status ≠ SignalStatus.Open := by
      simp
    have h2 := cancel_not_open hl2 hst2 how hne2
    simp only [h1]
    rw [h2]
  · intro st strategy_id sid s hl hs
    have hrow := statsRow_remove st sid strategy_id s hl (by simp [hs])
    simp only [update_stats_spec]
    rw [hrow]

/-- Witness for C6: the three parts at concrete inputs. -/
theorem c6_cancel_semantics_witness :
    cancel_signal exC6State 1 1 =
      (exC6State, AgentHubResponse.Error AgentHubError.SignalNotOpen) :=
  c6_cancel_semantics.1 exC6State 1 1 exResolvedSignal exStrategy
    (by decide) (by decide) (by decide) (by decide)

set_option maxRecDepth 8192 in
/-- C7 counterexample: follow does not trigger a stats recompute — it only
rewrites the followers field.  On the reachable state where a broadcast has
overwritten resolved signal 1 with pnl 5, account 2's successful follow
leaves the stored stats row (pnl 1000) different from the full recompute
(statsRow, pnl 5) of the post-follow state, even though the follower count
matches. -/
theorem c7_counterexample :
    c7FollowStep.2.1 = AgentHubResponse.Followed 1 ∧
    lookupA c7FollowStep.1.strategy_stats 1 ≠
      some (statsRow c7FollowStep.1 1) := by
  decide

/-- C7 (amended): a successful follow inserts the (strategy_id, follower)
relation, increments the strategy's follower counter, and rewrites only the
followers field of the stored stats row to the new count (no full stats
recompute happens); a successful unfollow removes the relation, decrements
the counter with saturation at zero, and likewise rewrites only the
followers field. -/
theorem c7_follow_unfollow (ctx : Ctx) (st : AgentHubState) (fo sid : Nat)
    (auto : Bool) (mx : Nat) :
    (containsA st.strategies sid = true →
      containsA st.followers { strategy_id := sid, follower := fo } = false →
      follow_strategy ctx st fo sid auto mx =
        ({ st with
            followers :=
              (insertA st.followers { strategy_id := sid, follower := fo }
                { strategy_id := sid, follower := fo, auto_copy := auto,
                  max_exposure_units := mx, created_at := ctx.time }),
            follower_count :=
              (insertA st.follower_count sid
                ((lookupA st.follower_count sid).getD 0 + 1)),
            strategy_stats :=
              (insertA st.strategy_stats sid
                { (lookupA st.strategy_stats sid).getD defaultStats with
                    followers :=
                      (lookupA st.follower_count sid).getD 0 + 1 }) },
         AgentHubResponse.Followed sid)) ∧
    (containsA st.followers { strategy_id := sid, follower := fo } = true →
      unfollow_strategy st fo sid =
        ({ st with
            followers :=
              (removeA st.followers { strategy_id := sid, follower := fo }),
            follower_count :=
              (insertA st.follower_count sid
                ((lookupA st.follower_count sid).getD 1 - 1)),
            strategy_stats :=
              (insertA st.strategy_stats sid
                { (lookupA st.strategy_stats sid).getD defaultStats with
                    followers :=
                      (lookupA st.follower_count sid).getD 1 - 1 }) },
         AgentHubResponse.Unfollowed sid)) :=
  ⟨fun h1 h2 => follow_success ctx auto mx h1 h2,
   fun h1 => unfollow_success h1⟩

/-- Witness for C7: a concrete successful follow. -/
theorem c7_follow_unfollow_witness :
    (follow_strategy (ctxSigned 2) exC6State 2 1 false 0).2 =
      AgentHubResponse.Followed 1 := by
  rw [(c7_follow_unfollow (ctxSigned 2) exC6State 2 1 false 0).1
    (by decide) (by decide)]

/-- C10 counterexample: a SubscribeToStrategist with an unparsable chain id
does not always return the Subscribed variant — when the caller already has
an active subscription to the strategist, the AlreadySubscribed check (which
runs first) returns an error instead. -/
theorem c10_counterexample :
    (ctxSigned 10).parseChain "garbage" = none ∧
    (execute_operation (ctxSigned 10)
        (Operation.SubscribeToStrategist 20 "garbage") c10SetupState).2.1 =
      AgentHubResponse.Error AgentHubError.AlreadySubscribed := by
  decide

/-- C10 (amended): when the caller has no active subscription to the
strategist, a SubscribeToStrategist whose strategist_chain_id does not parse
still returns the success variant Subscribed with the synthetic
pending-timestamp identifier, sends no cross-shard message, and leaves the
local state bit-for-bit unchanged — indistinguishable from a successfully
dispatched request; otherwise it fails with AlreadySubscribed. -/
theorem c10_subscribe_unparsable (ctx : Ctx) (st : AgentHubState)
    (subscriber strategist : Nat) (cid : String)
    (hsig : ctx.signer = some subscriber)
    (hparse : ctx.parseChain cid = none)
    (hnone : findActiveSub st.subscriptions strategist
      ((lookupA st.subscriptions_by_subscriber subscriber).getD []) = none) :
    execute_operation ctx (Operation.SubscribeToStrategist strategist cid)
        st =
      (st, AgentHubResponse.Subscribed ("pending-" ++ toString ctx.time),
       []) := by
  simp [execute_operation, hsig, subscribe_to_strategist, hnone, hparse]

/-- Witness for C10 on the freshly instantiated state. -/
theorem c10_subscribe_unparsable_witness :
    execute_operation (ctxSigned 10)
        (Operation.SubscribeToStrategist 20 "garbage") st0 =
      (st0, AgentHubResponse.Subscribed
        ("pending-" ++ toString (ctxSigned 10).time), []) :=
  c10_subscribe_unparsable (ctxSigned 10) st0 10 20 "garbage" rfl rfl
    (by decide)

end AgentHub
